import Mathlib

/-!
Verification development for the multi-AI refinement framework.

The Python sources (ai_refinement_framework: core.py, providers.py,
framework.py, pipeline.py) are shallowly embedded below.  Python dicts
become functions into Option; mutation becomes explicit state passing
(operations that mutate return the new registry state); a raised
exception becomes an Except value paired with the state as it stands
when the exception escapes.  Python float literals and arithmetic on
quality scores and temperatures are embedded as exact rationals; the
vendor SDK network call hidden behind a provider client object is
embedded as an opaque function from the request data to the response
text, since the SDKs are external collaborators of this core.
-/

/-- Roles that AI agents can fulfill (core.py, class Role). -/
inductive Role where
  | generator
  | reviewer
  | refiner
  | qa_analyst
  | orchestrator
deriving DecidableEq, Repr

/-- The string value of each Role enum member (core.py). -/
def Role.value : Role → String
  | .generator => "generator"
  | .reviewer => "reviewer"
  | .refiner => "refiner"
  | .qa_analyst => "qa_analyst"
  | .orchestrator => "orchestrator"

/-- Model performance tiers (core.py, class ModelTier). -/
inductive ModelTier where
  | pro
  | flash
deriving DecidableEq, Repr

/-- An open string-keyed option mapping, standing for a Python kwargs dict
whose values the registry and providers never interpret. -/
abbrev OptionBag := List (String × String)

/-- The optional context dictionary threaded through dispatch calls. -/
abbrev Ctx := Option (List (String × String))

/-- A vendor SDK client: an opaque function from
(prompt, model, temperature, max tokens) to the response text.
Stands for the network-backed client object held by a real provider. -/
def Net : Type := String → String → ℚ → Option Nat → String

/-- State of the mock provider (providers.py, class MockProvider):
just the invocation counter. -/
structure MockProvider where
  call_count : Nat
deriving DecidableEq, Repr

/-- MockProvider.generate (providers.py): increments call_count and
returns the fixed-form echo of the model name and the first 50
characters of the prompt; temperature, max_tokens and kwargs are
accepted and ignored. -/
def MockProvider.generate (self : MockProvider) (prompt model : String)
    (temperature : ℚ := 7/10) (max_tokens : Option Nat := none)
    (kwargs : OptionBag := []) : MockProvider × String :=
  (⟨self.call_count + 1⟩,
   "[Mock " ++ model ++ "] Response to: " ++ prompt.take 50 ++ "...")

/-- OpenAIProvider.generate (providers.py): forwards prompt, model,
temperature and max_tokens to the SDK client and returns its text.
The chat-completions call is the opaque client function. -/
def OpenAIProvider.generate (client : Net) (prompt model : String)
    (temperature : ℚ := 7/10) (max_tokens : Option Nat := none) : String :=
  client prompt model temperature max_tokens

/-- A provider instance held by the registry: the mock provider with its
counter state, or a vendor provider wrapping an SDK client. -/
inductive Provider where
  | mock (state : MockProvider)
  | openai (client : Net)
  | anthropic (client : Net)
  | gemini (client : Net)

/-- Availability of the vendor SDKs at provider-construction time:
some client when the import succeeds, none when it raises ImportError. -/
structure SDKEnv where
  openai : Option Net
  anthropic : Option Net
  gemini : Option Net

/-- The agent configuration dict stored per Role by configure_agent
(framework.py): provider name, model, tier, temperature, plus the
extra kwargs. -/
structure AgentConfig where
  provider : String
  model : String
  tier : ModelTier
  temperature : ℚ
  extra : OptionBag
deriving DecidableEq, Repr

/-- The AIFramework registry state (framework.py, AIFramework.__init__):
the agents dict, the providers cache, and the prompts table. -/
structure AIFramework where
  agents : Role → Option AgentConfig
  providers : String → Option Provider
  prompts : String → Option String

/-- A freshly initialized framework: all three dicts empty. -/
def AIFramework.init : AIFramework :=
  { agents := fun _ => none, providers := fun _ => none, prompts := fun _ => none }

/-- Framework exceptions (exceptions.py), plus the Python KeyError that a
providers-dict lookup would raise on a missing key. -/
inductive FrameworkError where
  | roleNotConfigured (role : String)
  | promptNotFound (name : String)
  | keyError (key : String)
deriving DecidableEq, Repr

/-- AIFramework._get_provider (framework.py): construct a provider for a
name; vendor names yield the vendor provider when its SDK imports,
falling back to a fresh MockProvider on ImportError; any other name
yields a fresh MockProvider. -/
def AIFramework.get_provider (env : SDKEnv) (provider_name : String) : Provider :=
  if provider_name = "openai" then
    match env.openai with
    | some c => .openai c
    | none => .mock ⟨0⟩
  else if provider_name = "anthropic" then
    match env.anthropic with
    | some c => .anthropic c
    | none => .mock ⟨0⟩
  else if provider_name = "google" ∨ provider_name = "gemini" then
    match env.gemini with
    | some c => .gemini c
    | none => .mock ⟨0⟩
  else
    .mock ⟨0⟩

/-- AIFramework.configure_agent (framework.py): store the binding dict for
the role (overwriting any previous one), then create and cache a
provider under the provider name if none is cached yet. -/
def AIFramework.configure_agent (fw : AIFramework) (env : SDKEnv) (role : Role)
    (provider model : String) (tier : ModelTier := .pro)
    (temperature : ℚ := 7/10) (kwargs : OptionBag := []) : AIFramework :=
  let fw' : AIFramework :=
    { fw with
      agents := fun r =>
        if r = role then
          some { provider := provider, model := model, tier := tier,
                 temperature := temperature, extra := kwargs }
        else fw.agents r }
  if (fw'.providers provider).isSome then fw'
  else
    { fw' with
      providers := fun n =>
        if n = provider then some (AIFramework.get_provider env provider)
        else fw'.providers n }

/-- AIFramework.dispatch (framework.py): raise RoleNotConfigured when the
role has no binding; otherwise resolve the cached provider for the
bound provider name.  When it is the mock provider, forward prompt,
bound model, bound temperature and call-time kwargs to its generate
and return the text (the mock state in the cache advances); for a
vendor provider the current code returns a role-tagged placeholder
over the first 50 characters of the prompt and performs no generate
call.  The context argument is accepted and never used. -/
def AIFramework.dispatch (fw : AIFramework) (role : Role) (prompt : String)
    (context : Ctx := none) (kwargs : OptionBag := []) :
    AIFramework × Except FrameworkError String :=
  match fw.agents role with
  | none => (fw, .error (.roleNotConfigured role.value))
  | some cfg =>
    match fw.providers cfg.provider with
    | none => (fw, .error (.keyError cfg.provider))
    | some (.mock st) =>
      let r := st.generate prompt cfg.model cfg.temperature none kwargs
      ({ fw with
         providers := fun n =>
           if n = cfg.provider then some (.mock r.1) else fw.providers n },
       .ok r.2)
    | some _ =>
      (fw, .ok ("[" ++ role.value ++ "] Response to: " ++ prompt.take 50 ++ "..."))

/-- AIFramework.load_prompt (framework.py): store the text read from the
prompt source under the given name.  Reading the file is the external
collaborator; content is the text the read returns. -/
def AIFramework.load_prompt (fw : AIFramework) (name content : String) : AIFramework :=
  { fw with
    prompts := fun n => if n = name then some content else fw.prompts n }

/-- AIFramework.get_prompt (framework.py): return the stored text, or
raise PromptNotFound when the name was never loaded. -/
def AIFramework.get_prompt (fw : AIFramework) (name : String) :
    Except FrameworkError String :=
  match fw.prompts name with
  | none => .error (.promptNotFound name)
  | some s => .ok s

/-- Metadata recorded in a RefinementResult (pipeline.py execute,
Phase 6): the initial prompt and the context. -/
structure RefinementMetadata where
  initial_prompt : String
  context : Ctx
deriving DecidableEq, Repr

/-- RefinementResult (core.py): the pipeline's result object. -/
structure RefinementResult where
  final_output : String
  quality_score : ℚ
  iterations : Nat
  history : List String
  metadata : RefinementMetadata
deriving DecidableEq, Repr

/-- CAIRPipeline configuration state (pipeline.py, __init__), including
the framework the pipeline owns. -/
structure CAIRPipeline where
  generator_role : Role := .generator
  reviewer_role : Role := .reviewer
  refiner_role : Role := .refiner
  qa_role : Role := .qa_analyst
  max_iterations : Nat := 3
  quality_threshold : ℚ := 85/100
  framework : AIFramework := AIFramework.init

/-- The built-in placeholder quality score of pipeline.py:
0.7 + iteration * 0.1, as an exact rational. -/
def qualityScoreAt (iteration : Nat) : ℚ := 7/10 + iteration * (1/10)

/-- The review/refine/validate loop of CAIRPipeline.execute (pipeline.py,
Phases 2 to 5).  fuel is the number of remaining rounds (initially
max_iterations), iteration the Python loop index.  Each round reviews
the current output, refines from the feedback, appends the refined
output to history, computes the placeholder score, and stops early
when the score reaches the quality threshold.  A dispatch error
aborts the run with the state as mutated so far. -/
def CAIRPipeline.execLoop (p : CAIRPipeline) (context : Ctx) :
    Nat → Nat → AIFramework → String → List String → ℚ →
    AIFramework × Except FrameworkError (String × List String × ℚ)
  | 0, _, fw, current, history, score => (fw, .ok (current, history, score))
  | fuel + 1, iteration, fw, current, history, score =>
    match fw.dispatch p.reviewer_role ("Review this output: " ++ current) context [] with
    | (fw1, .error e) => (fw1, .error e)
    | (fw1, .ok feedback) =>
      match fw1.dispatch p.refiner_role
          ("Refine based on feedback: " ++ feedback) context [] with
      | (fw2, .error e) => (fw2, .error e)
      | (fw2, .ok current2) =>
        let history2 := history ++ [current2]
        let score2 := qualityScoreAt iteration
        if p.quality_threshold ≤ score2 then (fw2, .ok (current2, history2, score2))
        else p.execLoop context fuel (iteration + 1) fw2 current2 history2 score2

/-- CAIRPipeline.execute (pipeline.py): unconditional Generate dispatch,
then the refinement loop, then the RefinementResult with
final_output the current output, quality_score the last computed
score (0 when no round ran), iterations the history length, and the
metadata holding the initial prompt and context. -/
def CAIRPipeline.execute (p : CAIRPipeline) (initial_prompt : String)
    (context : Ctx := none) :
    AIFramework × Except FrameworkError RefinementResult :=
  match p.framework.dispatch p.generator_role initial_prompt context [] with
  | (fw, .error e) => (fw, .error e)
  | (fw, .ok current) =>
    match p.execLoop context p.max_iterations 0 fw current [current] 0 with
    | (fw', .error e) => (fw', .error e)
    | (fw', .ok (current2, history, score)) =>
      (fw', .ok { final_output := current2, quality_score := score,
                  iterations := history.length, history := history,
                  metadata := { initial_prompt := initial_prompt,
                                context := context } })

/-- Number of review/refine rounds the loop actually executes, as a
function of the threshold, the remaining round budget and the
starting iteration index (derived from the loop structure). -/
def roundsRun (q : ℚ) : Nat → Nat → Nat
  | 0, _ => 0
  | fuel + 1, iteration =>
    if q ≤ qualityScoreAt iteration then 1 else 1 + roundsRun q fuel (iteration + 1)

/-- The quality score the loop ends with, as a function of the threshold,
the score carried in, the remaining budget and the iteration index
(derived from the loop structure). -/
def finalScore (q : ℚ) (score : ℚ) : Nat → Nat → ℚ
  | 0, _ => score
  | fuel + 1, iteration =>
    if q ≤ qualityScoreAt iteration then qualityScoreAt iteration
    else finalScore q (qualityScoreAt iteration) fuel (iteration + 1)

/-- The invocation counter of the mock provider cached under a name
(0 when the name is uncached or caches a vendor provider). -/
def AIFramework.mockCount (fw : AIFramework) (name : String) : Nat :=
  match fw.providers name with
  | some (.mock st) => st.call_count
  | _ => 0

/-- A role is configured and dispatchable: it has a binding and the bound
provider name is present in the provider cache. -/
def AIFramework.Configured (fw : AIFramework) (role : Role) : Prop :=
  ∃ cfg, fw.agents role = some cfg ∧ (fw.providers cfg.provider).isSome

/-! ## Helper lemmas about dispatch -/

/-- Dispatch to a role bound to a cached mock provider: the cache entry
advances by one call and the mock echo is returned. -/
theorem AIFramework.dispatch_mock_eq (fw : AIFramework) (role : Role)
    (cfg : AgentConfig) (st : MockProvider) (prompt : String) (ctx : Ctx)
    (kwargs : OptionBag)
    (hA : fw.agents role = some cfg)
    (hP : fw.providers cfg.provider = some (.mock st)) :
    fw.dispatch role prompt ctx kwargs =
      ({ fw with
         providers := fun n =>
           if n = cfg.provider then some (.mock ⟨st.call_count + 1⟩)
           else fw.providers n },
       .ok ("[Mock " ++ cfg.model ++ "] Response to: " ++ prompt.take 50 ++ "...")) := by
  simp only [AIFramework.dispatch, hA, hP, MockProvider.generate]

/-- Dispatch to a configured role always succeeds, preserves the agents
and prompts tables, preserves which provider names are cached, and
only touches the cache entry of the dispatched role's provider name. -/
theorem AIFramework.dispatch_ok (fw : AIFramework) (role : Role)
    (cfg : AgentConfig) (p : Provider) (prompt : String) (ctx : Ctx)
    (kwargs : OptionBag)
    (hA : fw.agents role = some cfg)
    (hP : fw.providers cfg.provider = some p) :
    ∃ fw' t, fw.dispatch role prompt ctx kwargs = (fw', .ok t) ∧
      fw'.agents = fw.agents ∧ fw'.prompts = fw.prompts ∧
      (∀ n, (fw'.providers n).isSome = (fw.providers n).isSome) ∧
      (∀ n, n ≠ cfg.provider → fw'.providers n = fw.providers n) := by
  cases p with
  | mock st =>
    refine ⟨_, _, fw.dispatch_mock_eq role cfg st prompt ctx kwargs hA hP, rfl, rfl, ?_, ?_⟩
    · intro n
      by_cases h : n = cfg.provider
      · subst h; simp [hP]
      · simp [h]
    · intro n hn
      simp [hn]
  | openai c =>
    refine ⟨fw, "[" ++ role.value ++ "] Response to: " ++ prompt.take 50 ++ "...",
      ?_, rfl, rfl, fun _ => rfl, fun _ _ => rfl⟩
    simp only [AIFramework.dispatch, hA, hP]
  | anthropic c =>
    refine ⟨fw, "[" ++ role.value ++ "] Response to: " ++ prompt.take 50 ++ "...",
      ?_, rfl, rfl, fun _ => rfl, fun _ _ => rfl⟩
    simp only [AIFramework.dispatch, hA, hP]
  | gemini c =>
    refine ⟨fw, "[" ++ role.value ++ "] Response to: " ++ prompt.take 50 ++ "...",
      ?_, rfl, rfl, fun _ => rfl, fun _ _ => rfl⟩
    simp only [AIFramework.dispatch, hA, hP]

/-- Configuredness transports along agent-table equality and cache
presence equality. -/
theorem AIFramework.Configured_of (fw fw' : AIFramework) (r : Role)
    (hA : fw'.agents = fw.agents)
    (hP : ∀ n, (fw'.providers n).isSome = (fw.providers n).isSome)
    (h : fw.Configured r) : fw'.Configured r := by
  obtain ⟨cfg, h1, h2⟩ := h
  exact ⟨cfg, by rw [hA, h1], by rw [hP, h2]⟩

/-- Dispatch to a role bound to a cached mock provider, success form:
returns ok, advances exactly that cache entry's counter by one, and
leaves everything else unchanged. -/
theorem AIFramework.dispatch_mock_ok (fw : AIFramework) (role : Role)
    (cfg : AgentConfig) (a : Nat) (prompt : String) (ctx : Ctx)
    (kwargs : OptionBag)
    (hA : fw.agents role = some cfg)
    (hP : fw.providers cfg.provider = some (.mock ⟨a⟩)) :
    ∃ fw' t, fw.dispatch role prompt ctx kwargs = (fw', .ok t) ∧
      fw'.agents = fw.agents ∧ fw'.prompts = fw.prompts ∧
      fw'.providers cfg.provider = some (.mock ⟨a + 1⟩) ∧
      (∀ n, n ≠ cfg.provider → fw'.providers n = fw.providers n) := by
  refine ⟨_, _, fw.dispatch_mock_eq role cfg ⟨a⟩ prompt ctx kwargs hA hP,
    rfl, rfl, ?_, ?_⟩
  · simp
  · intro n hn
    simp [hn]

/-- The loop never executes more rounds than its budget. -/
theorem roundsRun_le (q : ℚ) : ∀ fuel iteration : Nat,
    roundsRun q fuel iteration ≤ fuel := by
  intro fuel
  induction fuel with
  | zero => intro it; simp [roundsRun]
  | succ fuel ih =>
    intro it
    by_cases h : q ≤ qualityScoreAt it
    · simp [roundsRun, h]
    · have := ih (it + 1)
      simp only [roundsRun, if_neg h]
      omega

/-- When the threshold is missed at every index in the budget window,
the loop executes the full budget. -/
theorem roundsRun_eq_fuel (q : ℚ) : ∀ fuel iteration : Nat,
    (∀ i, iteration ≤ i → i < iteration + fuel → qualityScoreAt i < q) →
    roundsRun q fuel iteration = fuel := by
  intro fuel
  induction fuel with
  | zero => intro it _; simp [roundsRun]
  | succ fuel ih =>
    intro it h
    have h0 : qualityScoreAt it < q := h it (Nat.le_refl it) (by omega)
    have hrec : roundsRun q fuel (it + 1) = fuel :=
      ih (it + 1) (fun i h1 h2 => h i (by omega) (by omega))
    simp only [roundsRun, if_neg (not_le.mpr h0), hrec]
    omega

/-- Every round strictly before the last executed round missed the
threshold. -/
theorem roundsRun_before_lt (q : ℚ) : ∀ fuel iteration i : Nat,
    i + 1 < roundsRun q fuel iteration → qualityScoreAt (iteration + i) < q := by
  intro fuel
  induction fuel with
  | zero => intro it i h; simp [roundsRun] at h
  | succ fuel ih =>
    intro it i h
    by_cases hbr : q ≤ qualityScoreAt it
    · simp [roundsRun, hbr] at h
    · simp only [roundsRun, if_pos, if_neg hbr] at h
      cases i with
      | zero => simpa using not_le.mp hbr
      | succ j =>
        rw [show it + (j + 1) = (it + 1) + j by omega]
        exact ih (it + 1) j (by omega)

/-- Characterization of the refinement loop for any configured reviewer
and refiner roles: it succeeds, appends exactly roundsRun refined
drafts to the history, ends with the finalScore, and preserves the
agents table and which provider names are cached. -/
theorem CAIRPipeline.execLoop_spec (p : CAIRPipeline) (ctx : Ctx) (fuel : Nat) :
    ∀ (iteration : Nat) (fw : AIFramework) (current : String)
      (history : List String) (score : ℚ),
      fw.Configured p.reviewer_role → fw.Configured p.refiner_role →
      ∃ fw' current2 tail,
        p.execLoop ctx fuel iteration fw current history score =
          (fw', .ok (current2, history ++ tail,
                     finalScore p.quality_threshold score fuel iteration)) ∧
        tail.length = roundsRun p.quality_threshold fuel iteration ∧
        fw'.agents = fw.agents ∧
        (∀ n, (fw'.providers n).isSome = (fw.providers n).isSome) := by
  induction fuel with
  | zero =>
    intro iteration fw current history score _ _
    exact ⟨fw, current, [], by simp [CAIRPipeline.execLoop, finalScore],
      by simp [roundsRun], rfl, fun _ => rfl⟩
  | succ fuel ih =>
    intro iteration fw current history score hrev href
    obtain ⟨cr, hAr, hPr⟩ := hrev
    obtain ⟨pr, hpr⟩ := Option.isSome_iff_exists.mp hPr
    obtain ⟨fw1, feedback, heq1, hA1, _, hS1, _⟩ :=
      fw.dispatch_ok p.reviewer_role cr pr
        ("Review this output: " ++ current) ctx [] hAr hpr
    obtain ⟨cf, hAf, hPf⟩ := href
    have hAf1 : fw1.agents p.refiner_role = some cf := by rw [hA1]; exact hAf
    have hPf1 : (fw1.providers cf.provider).isSome := by rw [hS1]; exact hPf
    obtain ⟨pf, hpf⟩ := Option.isSome_iff_exists.mp hPf1
    obtain ⟨fw2, current2, heq2, hA2, _, hS2, _⟩ :=
      fw1.dispatch_ok p.refiner_role cf pf
        ("Refine based on feedback: " ++ feedback) ctx [] hAf1 hpf
    have hA21 : fw2.agents = fw.agents := hA2.trans hA1
    have hS21 : ∀ n, (fw2.providers n).isSome = (fw.providers n).isSome :=
      fun n => (hS2 n).trans (hS1 n)
    by_cases hbr : p.quality_threshold ≤ qualityScoreAt iteration
    · refine ⟨fw2, current2, [current2], ?_, ?_, hA21, hS21⟩
      · simp only [CAIRPipeline.execLoop, heq1, heq2, if_pos hbr, finalScore]
      · simp [roundsRun, hbr]
    · have hrev2 : fw2.Configured p.reviewer_role :=
        AIFramework.Configured_of fw fw2 _ hA21 hS21 ⟨cr, hAr, hPr⟩
      have href2 : fw2.Configured p.refiner_role :=
        AIFramework.Configured_of fw fw2 _ hA21 hS21 ⟨cf, hAf, hPf⟩
      obtain ⟨fw', current', tail', heq', hlen', hA', hS'⟩ :=
        ih (iteration + 1) fw2 current2 (history ++ [current2])
          (qualityScoreAt iteration) hrev2 href2
      refine ⟨fw', current', current2 :: tail', ?_, ?_, hA'.trans hA21,
        fun n => (hS' n).trans (hS21 n)⟩
      · simp only [CAIRPipeline.execLoop, heq1, heq2, if_neg hbr, finalScore]
        rw [heq']
        simp
      · simp only [roundsRun, if_neg hbr, List.length_cons]
        omega

/-- Characterization of the refinement loop when the reviewer and refiner
roles are bound to mock providers cached under two distinct names:
additionally to the general characterization, each of the two cache
entries advances by exactly one call per executed round, and every
other cache entry is untouched. -/
theorem CAIRPipeline.execLoop_mock_spec (p : CAIRPipeline) (ctx : Ctx)
    (cr cf : AgentConfig) (hne : cr.provider ≠ cf.provider) (fuel : Nat) :
    ∀ (iteration : Nat) (fw : AIFramework) (current : String)
      (history : List String) (score : ℚ) (a b : Nat),
      fw.agents p.reviewer_role = some cr →
      fw.providers cr.provider = some (.mock ⟨a⟩) →
      fw.agents p.refiner_role = some cf →
      fw.providers cf.provider = some (.mock ⟨b⟩) →
      ∃ fw' current2 tail,
        p.execLoop ctx fuel iteration fw current history score =
          (fw', .ok (current2, history ++ tail,
                     finalScore p.quality_threshold score fuel iteration)) ∧
        tail.length = roundsRun p.quality_threshold fuel iteration ∧
        fw'.agents = fw.agents ∧
        fw'.providers cr.provider =
          some (.mock ⟨a + roundsRun p.quality_threshold fuel iteration⟩) ∧
        fw'.providers cf.provider =
          some (.mock ⟨b + roundsRun p.quality_threshold fuel iteration⟩) ∧
        (∀ n, n ≠ cr.provider → n ≠ cf.provider →
          fw'.providers n = fw.providers n) := by
  induction fuel with
  | zero =>
    intro iteration fw current history score a b hAr hPr hAf hPf
    exact ⟨fw, current, [], by simp [CAIRPipeline.execLoop, finalScore],
      by simp [roundsRun], rfl, by simpa [roundsRun] using hPr,
      by simpa [roundsRun] using hPf, fun _ _ _ => rfl⟩
  | succ fuel ih =>
    intro iteration fw current history score a b hAr hPr hAf hPf
    obtain ⟨fw1, feedback, heq1, hA1, _, hPc1, hO1⟩ :=
      fw.dispatch_mock_ok p.reviewer_role cr a
        ("Review this output: " ++ current) ctx [] hAr hPr
    have hAf1 : fw1.agents p.refiner_role = some cf := by rw [hA1]; exact hAf
    have hPf1 : fw1.providers cf.provider = some (.mock ⟨b⟩) := by
      rw [hO1 cf.provider (Ne.symm hne)]; exact hPf
    obtain ⟨fw2, current2, heq2, hA2, _, hPc2, hO2⟩ :=
      fw1.dispatch_mock_ok p.refiner_role cf b
        ("Refine based on feedback: " ++ feedback) ctx [] hAf1 hPf1
    have hA21 : fw2.agents = fw.agents := hA2.trans hA1
    have hPr2 : fw2.providers cr.provider = some (.mock ⟨a + 1⟩) := by
      rw [hO2 cr.provider hne]; exact hPc1
    have hO21 : ∀ n, n ≠ cr.provider → n ≠ cf.provider →
        fw2.providers n = fw.providers n := by
      intro n h1 h2
      rw [hO2 n h2, hO1 n h1]
    by_cases hbr : p.quality_threshold ≤ qualityScoreAt iteration
    · refine ⟨fw2, current2, [current2], ?_, ?_, hA21, ?_, ?_, ?_⟩
      · simp only [CAIRPipeline.execLoop, heq1, heq2, if_pos hbr, finalScore]
      · simp [roundsRun, hbr]
      · simpa [roundsRun, hbr] using hPr2
      · simpa [roundsRun, hbr] using hPc2
      · intro n h1 h2
        exact hO21 n h1 h2
    · have hAr2 : fw2.agents p.reviewer_role = some cr := by rw [hA21]; exact hAr
      have hAf2 : fw2.agents p.refiner_role = some cf := by rw [hA21]; exact hAf
      obtain ⟨fw', current', tail', heq', hlen', hA', hPr', hPf', hO'⟩ :=
        ih (iteration + 1) fw2 current2 (history ++ [current2])
          (qualityScoreAt iteration) (a + 1) (b + 1) hAr2 hPr2 hAf2 hPc2
      refine ⟨fw', current', current2 :: tail', ?_, ?_, hA'.trans hA21, ?_, ?_, ?_⟩
      · simp only [CAIRPipeline.execLoop, heq1, heq2, if_neg hbr, finalScore]
        rw [heq']
        simp
      · simp only [roundsRun, if_neg hbr, List.length_cons]
        omega
      · rw [hPr']
        simp only [roundsRun, if_neg hbr]
        rw [show a + 1 + roundsRun p.quality_threshold fuel (iteration + 1)
              = a + (1 + roundsRun p.quality_threshold fuel (iteration + 1)) by omega]
      · rw [hPf']
        simp only [roundsRun, if_neg hbr]
        rw [show b + 1 + roundsRun p.quality_threshold fuel (iteration + 1)
              = b + (1 + roundsRun p.quality_threshold fuel (iteration + 1)) by omega]
      · intro n h1 h2
        rw [hO' n h1 h2, hO21 n h1 h2]

/-! ## Helper lemmas about configure_agent -/

/-- configure_agent always stores exactly the new binding for the role
and keeps all other roles' bindings. -/
theorem AIFramework.configure_agents_eq (fw : AIFramework) (env : SDKEnv)
    (role : Role) (provider model : String) (tier : ModelTier)
    (temperature : ℚ) (kwargs : OptionBag) :
    (fw.configure_agent env role provider model tier temperature kwargs).agents =
      fun r =>
        if r = role then
          some { provider := provider, model := model, tier := tier,
                 temperature := temperature, extra := kwargs }
        else fw.agents r := by
  unfold AIFramework.configure_agent
  dsimp only
  split <;> rfl

/-- configure_agent with an already-cached provider name leaves the
provider cache untouched. -/
theorem AIFramework.configure_providers_present (fw : AIFramework) (env : SDKEnv)
    (role : Role) (provider model : String) (tier : ModelTier)
    (temperature : ℚ) (kwargs : OptionBag)
    (h : (fw.providers provider).isSome = true) :
    (fw.configure_agent env role provider model tier temperature kwargs).providers =
      fw.providers := by
  unfold AIFramework.configure_agent
  dsimp only
  split
  · rfl
  · rename_i hc
    exact absurd h hc

/-- configure_agent with an uncached provider name creates exactly that
cache entry via get_provider and keeps all other entries. -/
theorem AIFramework.configure_providers_absent (fw : AIFramework) (env : SDKEnv)
    (role : Role) (provider model : String) (tier : ModelTier)
    (temperature : ℚ) (kwargs : OptionBag)
    (h : fw.providers provider = none) :
    (fw.configure_agent env role provider model tier temperature kwargs).providers =
      fun n =>
        if n = provider then some (AIFramework.get_provider env provider)
        else fw.providers n := by
  unfold AIFramework.configure_agent
  dsimp only
  split
  · rename_i hc
    simp [h] at hc
  · rfl

/-! ## Concrete fixtures used by the witnesses -/

/-- An SDK environment where no vendor SDK is importable. -/
def envNone : SDKEnv := ⟨none, none, none⟩

/-- A fixed network reply used as the opaque vendor client. -/
def netDemo : Net := fun _ _ _ _ => "NETWORK RESPONSE"

/-- An SDK environment where the openai SDK imports successfully. -/
def envOpenAI : SDKEnv := ⟨some netDemo, none, none⟩

/-- A demo registry: generator, reviewer and refiner each bound to a
distinct provider name, all cached as fresh mock providers. -/
def fwDemo : AIFramework where
  agents := fun r =>
    match r with
    | .generator => some ⟨"g", "model-g", .pro, 7/10, []⟩
    | .reviewer => some ⟨"r", "model-r", .pro, 7/10, []⟩
    | .refiner => some ⟨"f", "model-f", .pro, 7/10, []⟩
    | _ => none
  providers := fun n =>
    if n = "g" ∨ n = "r" ∨ n = "f" then some (.mock ⟨0⟩) else none
  prompts := fun _ => none

/-- A second demo registry: all three pipeline roles share one vendor
(openai) provider, so every dispatch takes the placeholder path. -/
def fwDemoB : AIFramework where
  agents := fun r =>
    match r with
    | .generator => some ⟨"o", "gpt-4", .flash, 1/2, []⟩
    | .reviewer => some ⟨"o", "gpt-4", .pro, 7/10, []⟩
    | .refiner => some ⟨"o", "gpt-4", .pro, 7/10, []⟩
    | _ => none
  providers := fun n => if n = "o" then some (.openai netDemo) else none
  prompts := fun _ => none

/-- Demo pipeline: 2 rounds, threshold 2 (never reached). -/
def pDemo : CAIRPipeline :=
  { generator_role := .generator, reviewer_role := .reviewer,
    refiner_role := .refiner, qa_role := .qa_analyst,
    max_iterations := 2, quality_threshold := 2, framework := fwDemo }

/-- Demo pipeline: 3 rounds budgeted, threshold 3/4 (reached in round 2). -/
def pDemo2 : CAIRPipeline :=
  { generator_role := .generator, reviewer_role := .reviewer,
    refiner_role := .refiner, qa_role := .qa_analyst,
    max_iterations := 3, quality_threshold := 3/4, framework := fwDemo }

/-- Demo pipeline over the vendor-bound registry, same budget and
threshold as pDemo2. -/
def pDemo2B : CAIRPipeline :=
  { generator_role := .generator, reviewer_role := .reviewer,
    refiner_role := .refiner, qa_role := .qa_analyst,
    max_iterations := 3, quality_threshold := 3/4, framework := fwDemoB }

/-- Demo pipeline with a zero iteration budget. -/
def pDemo0 : CAIRPipeline :=
  { generator_role := .generator, reviewer_role := .reviewer,
    refiner_role := .refiner, qa_role := .qa_analyst,
    max_iterations := 0, quality_threshold := 85/100, framework := fwDemo }

/-! ## Claim theorems -/

/-- Claim C4: dispatch to a Role with no configured binding fails with
RoleNotConfigured, leaves the whole registry state (agent bindings,
provider cache, prompt table) unchanged, and every mock provider's
invocation counter stays unchanged, so no provider generate call
happened. -/
theorem C4_dispatch_unconfigured (fw : AIFramework) (role : Role)
    (prompt : String) (ctx : Ctx) (kwargs : OptionBag)
    (h : fw.agents role = none) :
    fw.dispatch role prompt ctx kwargs =
      (fw, .error (.roleNotConfigured role.value)) ∧
    (∀ n, (fw.dispatch role prompt ctx kwargs).1.mockCount n = fw.mockCount n) := by
  have he : fw.dispatch role prompt ctx kwargs =
      (fw, .error (.roleNotConfigured role.value)) := by
    simp only [AIFramework.dispatch, h]
  exact ⟨he, fun n => by rw [he]⟩

/-- Witness for C4 at the demo registry, whose qa_analyst role is not
configured. -/
theorem C4_witness :
    fwDemo.agents .qa_analyst = none ∧
    fwDemo.dispatch .qa_analyst "Validate this" none [] =
      (fwDemo, .error (.roleNotConfigured "qa_analyst")) ∧
    (∀ n, (fwDemo.dispatch .qa_analyst "Validate this" none []).1.mockCount n =
      fwDemo.mockCount n) := by
  have h := C4_dispatch_unconfigured fwDemo .qa_analyst "Validate this" none [] rfl
  exact ⟨rfl, h.1, h.2⟩

/-- Claim C6: the mock provider's generate never fails and is the total
function returning exactly the model-name tag followed by the first
at-most-50 characters of the prompt, with the counter advanced by
one; the text is determined by prompt and model alone (temperature,
max_tokens, extra options and the counter state have no effect on
it), and the echoed prompt excerpt has length at most 50. -/
theorem C6_mock_generate (st st' : MockProvider) (prompt model : String)
    (t t' : ℚ) (mt mt' : Option Nat) (k k' : OptionBag) :
    st.generate prompt model t mt k =
      (⟨st.call_count + 1⟩,
       "[Mock " ++ model ++ "] Response to: " ++ prompt.take 50 ++ "...") ∧
    (st.generate prompt model t mt k).2 = (st'.generate prompt model t' mt' k').2 ∧
    (st.generate prompt model t mt k).1.call_count = st.call_count + 1 ∧
    (prompt.take 50).length ≤ 50 := by
  refine ⟨rfl, rfl, rfl, ?_⟩
  rw [String.take_eq]
  simp only [String.length]
  exact List.length_take_le 50 prompt.data

/-- Claim C7: configure_agent is an overwriting upsert: configuring the
same Role twice leaves exactly the second binding in effect, entirely
replacing the first (no merging of any field), and the agents table
holds at most one binding per Role by construction. -/
theorem C7_configure_overwrites (fw : AIFramework) (env1 env2 : SDKEnv)
    (role : Role) (p1 m1 p2 m2 : String) (t1 t2 : ModelTier)
    (temp1 temp2 : ℚ) (e1 e2 : OptionBag) :
    ((fw.configure_agent env1 role p1 m1 t1 temp1 e1).configure_agent
        env2 role p2 m2 t2 temp2 e2).agents role =
      some { provider := p2, model := m2, tier := t2,
             temperature := temp2, extra := e2 } := by
  rw [AIFramework.configure_agents_eq]
  simp

/-- Claim C8: get_prompt after load_prompt of the same name returns
exactly the loaded content, and get_prompt of a never-loaded name
fails with PromptNotFound. -/
theorem C8_prompt_roundtrip (fw : AIFramework) (name content missing : String)
    (h : fw.prompts missing = none) :
    (fw.load_prompt name content).get_prompt name = .ok content ∧
    fw.get_prompt missing = .error (.promptNotFound missing) := by
  constructor
  · simp [AIFramework.get_prompt, AIFramework.load_prompt]
  · simp [AIFramework.get_prompt, h]

/-- Witness for C8 at a concrete registry and prompt names. -/
theorem C8_witness :
    fwDemo.prompts "missing" = none ∧
    (fwDemo.load_prompt "greet" "Hello, reviewer!").get_prompt "greet" =
      .ok "Hello, reviewer!" ∧
    fwDemo.get_prompt "missing" = .error (.promptNotFound "missing") := by
  have h := C8_prompt_roundtrip fwDemo "greet" "Hello, reviewer!" "missing" rfl
  exact ⟨rfl, h.1, h.2⟩

/-- Claim C9: the provider cache holds at most one handle per name:
configuring a name already cached leaves the cache identical (the
handle is shared with every Role later bound to that name), an
uncached name gets exactly one handle created by get_provider (lazy
creation) with all other entries untouched, and get_provider on any
name outside the recognized set (openai, anthropic, google, gemini)
yields the no-op mock provider, so configuration never fails. -/
theorem C9_provider_cache (fw : AIFramework) (env : SDKEnv) (role : Role)
    (name model : String) (tier : ModelTier) (temp : ℚ) (e : OptionBag) :
    ((fw.providers name).isSome = true →
      (fw.configure_agent env role name model tier temp e).providers =
        fw.providers) ∧
    (fw.providers name = none →
      (fw.configure_agent env role name model tier temp e).providers name =
        some (AIFramework.get_provider env name) ∧
      (∀ n, n ≠ name →
        (fw.configure_agent env role name model tier temp e).providers n =
          fw.providers n)) ∧
    (name ≠ "openai" → name ≠ "anthropic" → name ≠ "google" → name ≠ "gemini" →
      AIFramework.get_provider env name = .mock ⟨0⟩) := by
  refine ⟨?_, ?_, ?_⟩
  · intro h
    exact fw.configure_providers_present env role name model tier temp e h
  · intro h
    rw [fw.configure_providers_absent env role name model tier temp e h]
    refine ⟨by simp, ?_⟩
    intro n hn
    simp [hn]
  · intro h1 h2 h3 h4
    unfold AIFramework.get_provider
    rw [if_neg h1, if_neg h2, if_neg (by simp [h3, h4])]

/-- Witness for C9: caching at a present name, lazy creation at an
absent unrecognized name, and the mock fallback itself. -/
theorem C9_witness :
    ((fwDemo.configure_agent envNone .qa_analyst "r" "model-r2" .flash (1/2) []).providers =
      fwDemo.providers) ∧
    ((AIFramework.init.configure_agent envNone .generator "custom" "m" .pro (7/10) []).providers "custom" =
      some (AIFramework.get_provider envNone "custom")) ∧
    AIFramework.get_provider envNone "custom" = .mock ⟨0⟩ := by
  refine ⟨?_, ?_, ?_⟩
  · exact (C9_provider_cache fwDemo envNone .qa_analyst "r" "model-r2" .flash (1/2) []).1 rfl
  · exact ((C9_provider_cache AIFramework.init envNone .generator "custom" "m" .pro (7/10) []).2.1 rfl).1
  · exact (C9_provider_cache AIFramework.init envNone .generator "custom" "m" .pro (7/10) []).2.2
      (by decide) (by decide) (by decide) (by decide)

/-- Characterization of execute when generator, reviewer and refiner are
all configured: the run succeeds, the history holds the generated
draft plus one refined draft per executed round, the score is the
finalScore of the loop, and iterations is the history length. -/
theorem CAIRPipeline.execute_spec (p : CAIRPipeline) (prompt : String) (ctx : Ctx)
    (hg : p.framework.Configured p.generator_role)
    (hr : p.framework.Configured p.reviewer_role)
    (hf : p.framework.Configured p.refiner_role) :
    ∃ fw' res, p.execute prompt ctx = (fw', .ok res) ∧
      res.history.length = 1 + roundsRun p.quality_threshold p.max_iterations 0 ∧
      res.quality_score = finalScore p.quality_threshold 0 p.max_iterations 0 ∧
      res.iterations = res.history.length := by
  obtain ⟨cg, hAg, hPg⟩ := hg
  obtain ⟨pg, hpg⟩ := Option.isSome_iff_exists.mp hPg
  obtain ⟨fw1, t, heq1, hA1, _, hS1, _⟩ :=
    p.framework.dispatch_ok p.generator_role cg pg prompt ctx [] hAg hpg
  have hr1 := AIFramework.Configured_of _ fw1 _ hA1 hS1 hr
  have hf1 := AIFramework.Configured_of _ fw1 _ hA1 hS1 hf
  obtain ⟨fw', cur', tail', heqL, hlen, _, _⟩ :=
    p.execLoop_spec ctx p.max_iterations 0 fw1 t [t] 0 hr1 hf1
  refine ⟨fw',
    { final_output := cur',
      quality_score := finalScore p.quality_threshold 0 p.max_iterations 0,
      iterations := ([t] ++ tail').length,
      history := [t] ++ tail',
      metadata := { initial_prompt := prompt, context := ctx } },
    ?_, ?_, rfl, rfl⟩
  · simp only [CAIRPipeline.execute, heq1, heqL]
  · simp only [List.length_append, List.length_cons, List.length_nil, hlen]

/-- Claim C5: execute with max_iterations = 0 still performs the
unconditional Generate dispatch and returns a result with
iterations = 1, history holding exactly the one generated output,
final_output equal to that output, and quality_score = 0 since no
evaluation ever ran. -/
theorem C5_zero_budget (p : CAIRPipeline) (prompt : String) (ctx : Ctx)
    (cg : AgentConfig) (pg : Provider)
    (h0 : p.max_iterations = 0)
    (hAg : p.framework.agents p.generator_role = some cg)
    (hPg : p.framework.providers cg.provider = some pg) :
    ∃ fw' t, p.execute prompt ctx =
      (fw', .ok { final_output := t, quality_score := 0, iterations := 1,
                  history := [t],
                  metadata := { initial_prompt := prompt, context := ctx } }) := by
  obtain ⟨fw1, t, heq1, _, _, _, _⟩ :=
    p.framework.dispatch_ok p.generator_role cg pg prompt ctx [] hAg hPg
  refine ⟨fw1, t, ?_⟩
  simp only [CAIRPipeline.execute, heq1, h0, CAIRPipeline.execLoop,
    List.length_cons, List.length_nil]

/-- Witness for C5 at the zero-budget demo pipeline. -/
theorem C5_witness :
    pDemo0.max_iterations = 0 ∧
    ∃ fw' t, pDemo0.execute "Create a REST endpoint" none =
      (fw', .ok { final_output := t, quality_score := 0, iterations := 1,
                  history := [t],
                  metadata := { initial_prompt := "Create a REST endpoint",
                                context := none } }) :=
  ⟨rfl, C5_zero_budget pDemo0 "Create a REST endpoint" none
    ⟨"g", "model-g", .pro, 7/10, []⟩ (.mock ⟨0⟩) rfl rfl rfl⟩

/-- Claim C2: whenever the built-in score misses the quality threshold at
every one of the N budgeted rounds, execute with max_iterations = N
yields a history of length N + 1 (the generated draft plus N refined
drafts), and the mock providers bound to the Reviewer and Refiner
roles are each invoked exactly N times. -/
theorem C2_full_budget (p : CAIRPipeline) (prompt : String) (ctx : Ctx)
    (cg cr cf : AgentConfig) (pg : Provider) (a b : Nat)
    (hAg : p.framework.agents p.generator_role = some cg)
    (hPg : p.framework.providers cg.provider = some pg)
    (hAr : p.framework.agents p.reviewer_role = some cr)
    (hPr : p.framework.providers cr.provider = some (.mock ⟨a⟩))
    (hAf : p.framework.agents p.refiner_role = some cf)
    (hPf : p.framework.providers cf.provider = some (.mock ⟨b⟩))
    (hgr : cg.provider ≠ cr.provider) (hgf : cg.provider ≠ cf.provider)
    (hrf : cr.provider ≠ cf.provider)
    (hq : ∀ i < p.max_iterations, qualityScoreAt i < p.quality_threshold) :
    ∃ fw' res, p.execute prompt ctx = (fw', .ok res) ∧
      res.history.length = p.max_iterations + 1 ∧
      fw'.mockCount cr.provider = a + p.max_iterations ∧
      fw'.mockCount cf.provider = b + p.max_iterations := by
  obtain ⟨fw1, t, heq1, hA1, _, _, hO1⟩ :=
    p.framework.dispatch_ok p.generator_role cg pg prompt ctx [] hAg hPg
  have hAr1 : fw1.agents p.reviewer_role = some cr := by rw [hA1]; exact hAr
  have hPr1 : fw1.providers cr.provider = some (.mock ⟨a⟩) := by
    rw [hO1 cr.provider (Ne.symm hgr)]; exact hPr
  have hAf1 : fw1.agents p.refiner_role = some cf := by rw [hA1]; exact hAf
  have hPf1 : fw1.providers cf.provider = some (.mock ⟨b⟩) := by
    rw [hO1 cf.provider (Ne.symm hgf)]; exact hPf
  obtain ⟨fw', cur', tail', heqL, hlen, _, hPr', hPf', _⟩ :=
    p.execLoop_mock_spec ctx cr cf hrf p.max_iterations 0 fw1 t [t] 0 a b
      hAr1 hPr1 hAf1 hPf1
  have hR : roundsRun p.quality_threshold p.max_iterations 0 = p.max_iterations :=
    roundsRun_eq_fuel _ _ _ (fun i _ h2 => hq i (by omega))
  refine ⟨fw',
    { final_output := cur',
      quality_score := finalScore p.quality_threshold 0 p.max_iterations 0,
      iterations := ([t] ++ tail').length,
      history := [t] ++ tail',
      metadata := { initial_prompt := prompt, context := ctx } },
    ?_, ?_, ?_, ?_⟩
  · simp only [CAIRPipeline.execute, heq1, heqL]
  · simp only [List.length_append, List.length_cons, List.length_nil, hlen, hR]
    omega
  · simp [AIFramework.mockCount, hPr', hR]
  · simp [AIFramework.mockCount, hPf', hR]

/-- Witness for C2 at the demo pipeline with threshold 2 and 2 rounds. -/
theorem C2_witness :
    (∀ i < pDemo.max_iterations, qualityScoreAt i < pDemo.quality_threshold) ∧
    ∃ fw' res, pDemo.execute "Test prompt" none = (fw', .ok res) ∧
      res.history.length = pDemo.max_iterations + 1 ∧
      fw'.mockCount "r" = 0 + pDemo.max_iterations ∧
      fw'.mockCount "f" = 0 + pDemo.max_iterations := by
  have hq : ∀ i < pDemo.max_iterations, qualityScoreAt i < pDemo.quality_threshold := by
    intro i hi
    have hi2 : i < 2 := hi
    interval_cases i <;> norm_num [qualityScoreAt, pDemo]
  exact ⟨hq,
    C2_full_budget pDemo "Test prompt" none
      ⟨"g", "model-g", .pro, 7/10, []⟩ ⟨"r", "model-r", .pro, 7/10, []⟩
      ⟨"f", "model-f", .pro, 7/10, []⟩ (.mock ⟨0⟩) 0 0
      rfl rfl rfl rfl rfl rfl (by decide) (by decide) (by decide) hq⟩

/-- Claim C3: iteration stops at the first round whose score reaches the
threshold.  With roundsRun the number of rounds actually executed:
every round strictly before the last executed one scored below the
threshold (so no reviewer or refiner dispatch ever follows a round
that met it), the reviewer-bound and refiner-bound mock counters
advance by exactly roundsRun, roundsRun never exceeds the budget,
and the returned iterations equals the history length (one generate
entry plus one entry per executed round), not max_iterations. -/
theorem C3_early_stop (p : CAIRPipeline) (prompt : String) (ctx : Ctx)
    (cg cr cf : AgentConfig) (pg : Provider) (a b : Nat)
    (hAg : p.framework.agents p.generator_role = some cg)
    (hPg : p.framework.providers cg.provider = some pg)
    (hAr : p.framework.agents p.reviewer_role = some cr)
    (hPr : p.framework.providers cr.provider = some (.mock ⟨a⟩))
    (hAf : p.framework.agents p.refiner_role = some cf)
    (hPf : p.framework.providers cf.provider = some (.mock ⟨b⟩))
    (hgr : cg.provider ≠ cr.provider) (hgf : cg.provider ≠ cf.provider)
    (hrf : cr.provider ≠ cf.provider) :
    ∃ fw' res, p.execute prompt ctx = (fw', .ok res) ∧
      res.history.length = 1 + roundsRun p.quality_threshold p.max_iterations 0 ∧
      res.iterations = res.history.length ∧
      roundsRun p.quality_threshold p.max_iterations 0 ≤ p.max_iterations ∧
      fw'.mockCount cr.provider =
        a + roundsRun p.quality_threshold p.max_iterations 0 ∧
      fw'.mockCount cf.provider =
        b + roundsRun p.quality_threshold p.max_iterations 0 ∧
      (∀ i, i + 1 < roundsRun p.quality_threshold p.max_iterations 0 →
        qualityScoreAt i < p.quality_threshold) := by
  obtain ⟨fw1, t, heq1, hA1, _, _, hO1⟩ :=
    p.framework.dispatch_ok p.generator_role cg pg prompt ctx [] hAg hPg
  have hAr1 : fw1.agents p.reviewer_role = some cr := by rw [hA1]; exact hAr
  have hPr1 : fw1.providers cr.provider = some (.mock ⟨a⟩) := by
    rw [hO1 cr.provider (Ne.symm hgr)]; exact hPr
  have hAf1 : fw1.agents p.refiner_role = some cf := by rw [hA1]; exact hAf
  have hPf1 : fw1.providers cf.provider = some (.mock ⟨b⟩) := by
    rw [hO1 cf.provider (Ne.symm hgf)]; exact hPf
  obtain ⟨fw', cur', tail', heqL, hlen, _, hPr', hPf', _⟩ :=
    p.execLoop_mock_spec ctx cr cf hrf p.max_iterations 0 fw1 t [t] 0 a b
      hAr1 hPr1 hAf1 hPf1
  refine ⟨fw',
    { final_output := cur',
      quality_score := finalScore p.quality_threshold 0 p.max_iterations 0,
      iterations := ([t] ++ tail').length,
      history := [t] ++ tail',
      metadata := { initial_prompt := prompt, context := ctx } },
    ?_, ?_, rfl, roundsRun_le _ _ _, ?_, ?_, ?_⟩
  · simp only [CAIRPipeline.execute, heq1, heqL]
  · simp only [List.length_append, List.length_cons, List.length_nil, hlen]
  · simp [AIFramework.mockCount, hPr']
  · simp [AIFramework.mockCount, hPf']
  · intro i hi
    have := roundsRun_before_lt p.quality_threshold p.max_iterations 0 i hi
    simpa using this

/-- Witness for C3 at the demo pipeline with threshold 3/4 and a budget
of 3 rounds (the threshold is reached in round 2, so exactly 2 of
the 3 budgeted rounds run). -/
theorem C3_witness :
    roundsRun pDemo2.quality_threshold pDemo2.max_iterations 0 = 2 ∧
    ∃ fw' res, pDemo2.execute "Test prompt" none = (fw', .ok res) ∧
      res.history.length = 1 + roundsRun pDemo2.quality_threshold pDemo2.max_iterations 0 ∧
      res.iterations = res.history.length ∧
      roundsRun pDemo2.quality_threshold pDemo2.max_iterations 0 ≤ pDemo2.max_iterations ∧
      fw'.mockCount "r" = 0 + roundsRun pDemo2.quality_threshold pDemo2.max_iterations 0 ∧
      fw'.mockCount "f" = 0 + roundsRun pDemo2.quality_threshold pDemo2.max_iterations 0 ∧
      (∀ i, i + 1 < roundsRun pDemo2.quality_threshold pDemo2.max_iterations 0 →
        qualityScoreAt i < pDemo2.quality_threshold) := by
  constructor
  · show roundsRun (3/4) 3 0 = 2
    rw [show (3 : Nat) = 2 + 1 from rfl, roundsRun,
      if_neg (by norm_num [qualityScoreAt]),
      show (2 : Nat) = 1 + 1 from rfl, roundsRun,
      if_pos (by norm_num [qualityScoreAt])]
  · exact C3_early_stop pDemo2 "Test prompt" none
      ⟨"g", "model-g", .pro, 7/10, []⟩ ⟨"r", "model-r", .pro, 7/10, []⟩
      ⟨"f", "model-f", .pro, 7/10, []⟩ (.mock ⟨0⟩) 0 0
      rfl rfl rfl rfl rfl rfl (by decide) (by decide) (by decide)

/-- Claim C10: two pipeline executions with equal max_iterations and
equal quality_threshold execute the same number of review/refine
rounds (hence equal history lengths) and return the same quality
score, whatever the prompts, contexts, role bindings and provider
outputs are; the score is the closed function of threshold and
budget alone derived from the built-in 0.7 + 0.1 * iteration
placeholder, so loop termination is independent of the generated
text. -/
theorem C10_termination_independent (p1 p2 : CAIRPipeline)
    (prompt1 prompt2 : String) (ctx1 ctx2 : Ctx)
    (hN : p1.max_iterations = p2.max_iterations)
    (hq : p1.quality_threshold = p2.quality_threshold)
    (h1g : p1.framework.Configured p1.generator_role)
    (h1r : p1.framework.Configured p1.reviewer_role)
    (h1f : p1.framework.Configured p1.refiner_role)
    (h2g : p2.framework.Configured p2.generator_role)
    (h2r : p2.framework.Configured p2.reviewer_role)
    (h2f : p2.framework.Configured p2.refiner_role) :
    ∃ fw1 r1 fw2 r2,
      p1.execute prompt1 ctx1 = (fw1, .ok r1) ∧
      p2.execute prompt2 ctx2 = (fw2, .ok r2) ∧
      r1.history.length = r2.history.length ∧
      r1.quality_score = r2.quality_score ∧
      r1.quality_score = finalScore p1.quality_threshold 0 p1.max_iterations 0 := by
  obtain ⟨fw1, r1, heq1, hlen1, hsc1, _⟩ :=
    p1.execute_spec prompt1 ctx1 h1g h1r h1f
  obtain ⟨fw2, r2, heq2, hlen2, hsc2, _⟩ :=
    p2.execute_spec prompt2 ctx2 h2g h2r h2f
  refine ⟨fw1, r1, fw2, r2, heq1, heq2, ?_, ?_, hsc1⟩
  · rw [hlen1, hlen2, hN, hq]
  · rw [hsc1, hsc2, hN, hq]

/-- Witness for C10: the mock-bound demo pipeline and the vendor-bound
demo pipeline share budget 3 and threshold 3/4; run on different
prompts and contexts they agree on history length and score. -/
theorem C10_witness :
    ∃ fw1 r1 fw2 r2,
      pDemo2.execute "Prompt A" none = (fw1, .ok r1) ∧
      pDemo2B.execute "Prompt B" (some [("lang", "py")]) = (fw2, .ok r2) ∧
      r1.history.length = r2.history.length ∧
      r1.quality_score = r2.quality_score ∧
      r1.quality_score = finalScore pDemo2.quality_threshold 0 pDemo2.max_iterations 0 :=
  C10_termination_independent pDemo2 pDemo2B "Prompt A" "Prompt B"
    none (some [("lang", "py")]) rfl rfl
    ⟨⟨"g", "model-g", .pro, 7/10, []⟩, rfl, rfl⟩
    ⟨⟨"r", "model-r", .pro, 7/10, []⟩, rfl, rfl⟩
    ⟨⟨"f", "model-f", .pro, 7/10, []⟩, rfl, rfl⟩
    ⟨⟨"o", "gpt-4", .flash, 1/2, []⟩, rfl, rfl⟩
    ⟨⟨"o", "gpt-4", .pro, 7/10, []⟩, rfl, rfl⟩
    ⟨⟨"o", "gpt-4", .pro, 7/10, []⟩, rfl, rfl⟩

/-- A registry obtained by configuring the generator role to the openai
provider in an environment where the openai SDK imports, so the
cached handle is the vendor provider. -/
def fwVendor : AIFramework :=
  AIFramework.init.configure_agent envOpenAI .generator "openai" "gpt-4"
    .pro (7/10) []

set_option maxRecDepth 16384 in
/-- Claim C1 counterexample: the generator role is configured and its
binding resolves to the openai vendor provider, whose generate would
return the client's network reply; yet dispatch returns the
role-tagged placeholder built from the truncated prompt, not the
provider's generated text, and performs no generate call (the state,
including every provider handle, is returned unchanged).  So
dispatch does not forward every configured role's prompt to the
resolved provider's generate. -/
theorem C1_counterexample :
    fwVendor.agents .generator =
      some ⟨"openai", "gpt-4", .pro, 7/10, []⟩ ∧
    fwVendor.providers "openai" = some (.openai netDemo) ∧
    OpenAIProvider.generate netDemo "hello world" "gpt-4" (7/10) none =
      "NETWORK RESPONSE" ∧
    fwVendor.dispatch .generator "hello world" none [] =
      (fwVendor, .ok "[generator] Response to: hello world...") ∧
    ("[generator] Response to: hello world..." : String) ≠ "NETWORK RESPONSE" :=
  ⟨rfl, rfl, rfl, rfl, by decide⟩

/-- Claim C1 (amended): for every Role whose configured binding resolves
to the cached mock provider, dispatch forwards the prompt, the bound
model, the bound temperature and the call-time extra options to that
provider's generate and returns its generated text verbatim (no
post-processing, truncation or retry), advancing exactly that cache
entry; when the binding resolves to a vendor provider, dispatch
instead returns a role-tagged placeholder without calling generate. -/
theorem C1_dispatch_forwards_to_mock (fw : AIFramework) (role : Role)
    (cfg : AgentConfig) (st : MockProvider) (prompt : String) (ctx : Ctx)
    (kwargs : OptionBag)
    (hA : fw.agents role = some cfg)
    (hP : fw.providers cfg.provider = some (.mock st)) :
    fw.dispatch role prompt ctx kwargs =
      ({ fw with
         providers := fun n =>
           if n = cfg.provider
           then some (.mock (st.generate prompt cfg.model cfg.temperature none kwargs).1)
           else fw.providers n },
       .ok (st.generate prompt cfg.model cfg.temperature none kwargs).2) :=
  fw.dispatch_mock_eq role cfg st prompt ctx kwargs hA hP

set_option maxRecDepth 16384 in
/-- Witness for the amended C1 at the demo registry: a concrete
mock-bound dispatch returning the mock generate's text verbatim. -/
theorem C1_witness :
    fwDemo.agents .generator = some ⟨"g", "model-g", .pro, 7/10, []⟩ ∧
    fwDemo.providers "g" = some (.mock ⟨0⟩) ∧
    fwDemo.dispatch .generator "Write a function" none [] =
      ({ fwDemo with
         providers := fun n =>
           if n = "g" then some (.mock ⟨1⟩) else fwDemo.providers n },
       .ok "[Mock model-g] Response to: Write a function...") :=
  ⟨rfl, rfl,
   C1_dispatch_forwards_to_mock fwDemo .generator
     ⟨"g", "model-g", .pro, 7/10, []⟩ ⟨0⟩ "Write a function" none [] rfl rfl⟩
